import Mathlib

/-
Shallow embedding of the DHCP collector of windows_exporter
(src/internal/collector/dhcp/dhcp.go).

The collector translates raw Windows performance-counter samples for the
DHCP Server service into prometheus metric samples.  Two acquisition paths
exist: the legacy Structured-Decode path (collect, via perflib
UnmarshalObject) and the direct Raw-Named-Lookup path (collectPDH, via a
perfdata query handle).

Modelling conventions:
- Go float64 values are modelled as Rat: the code copies raw counter values
  verbatim into metric samples and performs no arithmetic on them, so any
  type with decidable equality models the data flow exactly.
- The emission channel (ch chan<- prometheus.Metric) is modelled by the
  list of emitted samples, returned together with the optional error of the
  collection call.  In the source every error return precedes the first
  emission, so an error outcome always carries an empty sample list.
- Helper packages of the repository that are not under src (the counter
  name constants, the dhcpPerf struct declaration, internal/perfdata,
  internal/perfdata/v1, internal/types) are modelled from the spec; each
  such definition carries a doc comment starting with: Modelled from the
  spec.
-/

namespace Dhcp

/-- Metric value kinds of the prometheus client library:
prometheus.CounterValue and prometheus.GaugeValue. -/
inductive ValueType where
  | counterValue
  | gaugeValue
deriving DecidableEq

/-- prometheus.Desc as built by prometheus.NewDesc(fqName, help, nil, nil):
a fully qualified metric name plus a help string; the collector passes nil
variable and constant labels throughout, so labels are omitted. -/
structure Desc where
  fqName : String
  help : String
deriving DecidableEq

/-- A metric sample as produced by prometheus.MustNewConstMetric(desc, vt, v).
The desc field is an Option because the Go descriptor fields are pointers
that are nil before Build runs. -/
structure Metric where
  desc : Option Desc
  valueType : ValueType
  value : Rat
deriving DecidableEq

/-- prometheus.BuildFQName from the prometheus client library: joins the
nonempty parts of namespace, subsystem and name with underscores; returns
the empty string when name is empty. -/
def buildFQName (namespaceStr subsystem nameStr : String) : String :=
  if nameStr = "" then ""
  else if namespaceStr ≠ "" ∧ subsystem ≠ "" then
    String.intercalate "_" [namespaceStr, subsystem, nameStr]
  else if subsystem ≠ "" then String.intercalate "_" [subsystem, nameStr]
  else if namespaceStr ≠ "" then String.intercalate "_" [namespaceStr, nameStr]
  else nameStr

/-- Modelled from the spec: types.Namespace, the fixed metric namespace
constant of internal/types (a package of this repository outside src).
Every metric name is formed by the fixed namespace/component/metric
convention. -/
def Namespace : String := "windows"

/-- const Name = "dhcp" (dhcp.go line 20): the component name. -/
def Name : String := "dhcp"

/-- Modelled from the spec: the counter identifiers of the Counter Catalog.
The identifier string constants (acksTotal, activeQueueLength, ...) are
declared in a sibling file of the dhcp package that is not under src; the
spec states the catalog identifiers are pairwise distinct and fixed for the
process lifetime, so they are modelled as an enumerated type, one
constructor per identifier referenced by dhcp.go. -/
inductive CounterId where
  | acksTotal
  | activeQueueLength
  | conflictCheckQueueLength
  | declinesTotal
  | deniedDueToMatch
  | deniedDueToNonMatch
  | discoversTotal
  | duplicatesDroppedTotal
  | failoverBndAckReceivedTotal
  | failoverBndAckSentTotal
  | failoverBndUpdDropped
  | failoverBndUpdPendingOutboundQueue
  | failoverBndUpdReceivedTotal
  | failoverBndUpdSentTotal
  | failoverTransitionsCommunicationInterruptedState
  | failoverTransitionsPartnerDownState
  | failoverTransitionsRecoverState
  | informsTotal
  | nacksTotal
  | offerQueueLength
  | offersTotal
  | packetsExpiredTotal
  | packetsReceivedTotal
  | releasesTotal
  | requestsTotal
deriving DecidableEq, Fintype

/-- Modelled from the spec: the dhcpPerf structured record decoded by the
Structured-Decode strategy.  The struct declaration lives in a sibling file
of the dhcp package that is not under src; its field names are exactly the
ones dhcp.go reads (dhcpPerfs[0].AcksTotal etc.), and per the spec each
field holds one raw numeric counter value. -/
structure dhcpPerf where
  AcksTotal : Rat
  ActiveQueueLength : Rat
  ConflictCheckQueueLength : Rat
  DeclinesTotal : Rat
  DeniedDueToMatch : Rat
  DeniedDueToNonMatch : Rat
  DiscoversTotal : Rat
  DuplicatesDroppedTotal : Rat
  FailoverBndAckReceivedTotal : Rat
  FailoverBndAckSentTotal : Rat
  FailoverBndUpdDropped : Rat
  FailoverBndUpdPendingOutboundQueue : Rat
  FailoverBndUpdReceivedTotal : Rat
  FailoverBndUpdSentTotal : Rat
  FailoverTransitionsCommunicationInterruptedState : Rat
  FailoverTransitionsPartnerDownState : Rat
  FailoverTransitionsRecoverState : Rat
  InformsTotal : Rat
  NacksTotal : Rat
  OfferQueueLength : Rat
  OffersTotal : Rat
  PacketsExpiredTotal : Rat
  PacketsReceivedTotal : Rat
  ReleasesTotal : Rat
  RequestsTotal : Rat
deriving DecidableEq

/-- Modelled from the spec: perftypes.CounterValues, the per-counter value
tuple returned by the Raw-Named-Lookup Collect call (first value, second
value, ...); only the first value is consumed by dhcp.go.  The all-zero
record is the Go zero value of the struct, produced by a map read of an
absent key. -/
structure CounterValues where
  FirstValue : Rat
  SecondValue : Rat
deriving DecidableEq

/-- The Go zero value of CounterValues. -/
def zeroValues : CounterValues := { FirstValue := 0, SecondValue := 0 }

/-- Modelled from the spec: perftypes.EmptyInstance, the constant singleton
instance key of the monitored service (the empty instance). -/
def EmptyInstance : String := ""

/-- Modelled from the spec: the query handle created by
perfdata.NewCollector for the Raw-Named-Lookup strategy.  It records the
performance object name and the explicit counter identifier set it was
resolved for, plus whether the handle is still open (a handle starts open
and is released only by an explicit close call on it). -/
structure PerfDataQuery where
  object : String
  counters : List CounterId
  isOpen : Bool
deriving DecidableEq

/-- Modelled from the spec: perfdata.NewCollector, the handle-creation call
of the counter-access API, taking the object name and the explicit
counter-identifier set.  The underlying API is out of scope and assumed
reliable, so creation succeeds and yields an open query handle recording
its inputs; the Except shape preserves the fallible call contract. -/
def perfdataNewCollector (object : String) (counters : List CounterId) :
    Except String PerfDataQuery :=
  Except.ok { object := object, counters := counters, isOpen := true }

/-- The raw result of one Raw-Named-Lookup Collect call: a map from
instance key to a map from counter identifier to value tuple
(map[string]map[string]perftypes.CounterValues), modelled as association
lists with Go map read semantics. -/
abbrev PerfData : Type := List (String × List (CounterId × CounterValues))

/-- Go map read with comma-ok on the outer instance map:
perfData[perftypes.EmptyInstance]. -/
def lookupInstance (pd : PerfData) : Option (List (CounterId × CounterValues)) :=
  (pd.find? fun p => decide (p.1 = EmptyInstance)).map Prod.snd

/-- Go map read without comma-ok on the inner counter map: data[ident]
yields the zero CounterValues when the key is absent. -/
def lookupCounter (data : List (CounterId × CounterValues)) (k : CounterId) :
    CounterValues :=
  ((data.find? fun p => decide (p.1 = k)).map Prod.snd).getD zeroValues

/-- The snapshot blob of the named performance object handed to the
Structured-Decode strategy (ctx.PerfObjects of the DHCP Server object),
modelled by its decode outcome: either a malformed blob or the ordered
record sequence it deserializes to. -/
inductive PerfObjectBlob where
  | malformed (msg : String)
  | records (recs : List dhcpPerf)

/-- Modelled from the spec: v1.UnmarshalObject of internal/perfdata/v1 (a
package of this repository outside src).  Per the spec it deserializes the
blob into an ordered sequence of per-instance structured records, fails
with a decode error on a malformed blob and fails with a no-records error
when the sequence is empty. -/
def v1UnmarshalObject : PerfObjectBlob → Except String (List dhcpPerf)
  | PerfObjectBlob.malformed msg => Except.error msg
  | PerfObjectBlob.records recs =>
      if recs.isEmpty then Except.error "no records" else Except.ok recs

/-- type Config struct{} (dhcp.go line 22). -/
structure Config where
deriving DecidableEq

/-- var ConfigDefaults = Config{} (dhcp.go line 24). -/
def ConfigDefaults : Config := {}

/-- The Collector struct (dhcp.go lines 27-57): configuration, the
perfdata query handle (nil before a PDH Build), and one descriptor pointer
per catalog entry (nil before Build). -/
structure Collector where
  config : Config
  perfDataCollector : Option PerfDataQuery
  acksTotal : Option Desc
  activeQueueLength : Option Desc
  conflictCheckQueueLength : Option Desc
  declinesTotal : Option Desc
  deniedDueToMatch : Option Desc
  deniedDueToNonMatch : Option Desc
  discoversTotal : Option Desc
  duplicatesDroppedTotal : Option Desc
  failoverBndAckReceivedTotal : Option Desc
  failoverBndAckSentTotal : Option Desc
  failoverBndUpdDropped : Option Desc
  failoverBndUpdPendingOutboundQueue : Option Desc
  failoverBndUpdReceivedTotal : Option Desc
  failoverBndUpdSentTotal : Option Desc
  failoverTransitionsCommunicationInterruptedState : Option Desc
  failoverTransitionsPartnerDownState : Option Desc
  failoverTransitionsRecoverState : Option Desc
  informsTotal : Option Desc
  nACKsTotal : Option Desc
  offerQueueLength : Option Desc
  offersTotal : Option Desc
  packetsExpiredTotal : Option Desc
  packetsReceivedTotal : Option Desc
  releasesTotal : Option Desc
  requestsTotal : Option Desc
deriving DecidableEq

/-- func New (dhcp.go lines 59-69): a fresh collector with the given (or
default) configuration; every pointer field is the Go zero value nil. -/
def New (config : Option Config) : Collector where
  config := config.getD ConfigDefaults
  perfDataCollector := none
  acksTotal := none
  activeQueueLength := none
  conflictCheckQueueLength := none
  declinesTotal := none
  deniedDueToMatch := none
  deniedDueToNonMatch := none
  discoversTotal := none
  duplicatesDroppedTotal := none
  failoverBndAckReceivedTotal := none
  failoverBndAckSentTotal := none
  failoverBndUpdDropped := none
  failoverBndUpdPendingOutboundQueue := none
  failoverBndUpdReceivedTotal := none
  failoverBndUpdSentTotal := none
  failoverTransitionsCommunicationInterruptedState := none
  failoverTransitionsPartnerDownState := none
  failoverTransitionsRecoverState := none
  informsTotal := none
  nACKsTotal := none
  offerQueueLength := none
  offersTotal := none
  packetsExpiredTotal := none
  packetsReceivedTotal := none
  releasesTotal := none
  requestsTotal := none

/-- func (c *Collector) GetPerfCounter (dhcp.go lines 79-85): the legacy
path advertises the DHCP Server performance object; the PDH path
advertises none.  The ambient utils.PDHEnabled() configuration switch is
passed explicitly. -/
def Collector.GetPerfCounter (_ : Collector) (pdhEnabled : Bool) : List String :=
  if pdhEnabled then [] else ["DHCP Server"]

/-- func (c *Collector) Close (dhcp.go lines 87-89): returns nil and does
nothing else; in particular it performs no close call on the
perfDataCollector handle, so the receiver state is returned unchanged.
The pair is (receiver state after the call, returned error). -/
def Collector.Close (c : Collector) : Collector × Option String :=
  (c, none)

/-- The counters slice built inside Build (dhcp.go lines 93-119), in source
order. -/
def dhcpCounters : List CounterId :=
  [CounterId.acksTotal,
   CounterId.activeQueueLength,
   CounterId.conflictCheckQueueLength,
   CounterId.declinesTotal,
   CounterId.deniedDueToMatch,
   CounterId.deniedDueToNonMatch,
   CounterId.discoversTotal,
   CounterId.duplicatesDroppedTotal,
   CounterId.failoverBndAckReceivedTotal,
   CounterId.failoverBndAckSentTotal,
   CounterId.failoverBndUpdDropped,
   CounterId.failoverBndUpdPendingOutboundQueue,
   CounterId.failoverBndUpdReceivedTotal,
   CounterId.failoverBndUpdSentTotal,
   CounterId.failoverTransitionsCommunicationInterruptedState,
   CounterId.failoverTransitionsPartnerDownState,
   CounterId.failoverTransitionsRecoverState,
   CounterId.informsTotal,
   CounterId.nacksTotal,
   CounterId.offerQueueLength,
   CounterId.offersTotal,
   CounterId.packetsExpiredTotal,
   CounterId.packetsReceivedTotal,
   CounterId.releasesTotal,
   CounterId.requestsTotal]

/-- func (c *Collector) Build (dhcp.go lines 91-281).  When the PDH switch
is set, a perfdata query handle is created first (a creation failure is
wrapped and returned before any descriptor is written); then every
descriptor field is assigned via prometheus.NewDesc with the fixed
namespace/component/metric name.  The ambient utils.PDHEnabled()
configuration switch is passed explicitly. -/
def Collector.Build (c : Collector) (pdhEnabled : Bool) : Except String Collector :=
  match (if pdhEnabled then
           match perfdataNewCollector "DHCP Server" dhcpCounters with
           | Except.error err =>
               Except.error ("failed to create DHCP Server collector: " ++ err)
           | Except.ok q => Except.ok (some q)
         else Except.ok c.perfDataCollector) with
  | Except.error err => Except.error err
  | Except.ok pdc =>
      Except.ok { c with
        perfDataCollector := pdc
        packetsReceivedTotal := some
          { fqName := buildFQName Namespace Name "packets_received_total"
            help := "Total number of packets received by the DHCP server (PacketsReceivedTotal)" }
        duplicatesDroppedTotal := some
          { fqName := buildFQName Namespace Name "duplicates_dropped_total"
            help := "Total number of duplicate packets received by the DHCP server (DuplicatesDroppedTotal)" }
        packetsExpiredTotal := some
          { fqName := buildFQName Namespace Name "packets_expired_total"
            help := "Total number of packets expired in the DHCP server message queue (PacketsExpiredTotal)" }
        activeQueueLength := some
          { fqName := buildFQName Namespace Name "active_queue_length"
            help := "Number of packets in the processing queue of the DHCP server (ActiveQueueLength)" }
        conflictCheckQueueLength := some
          { fqName := buildFQName Namespace Name "conflict_check_queue_length"
            help := "Number of packets in the DHCP server queue waiting on conflict detection (ping). (ConflictCheckQueueLength)" }
        discoversTotal := some
          { fqName := buildFQName Namespace Name "discovers_total"
            help := "Total DHCP Discovers received by the DHCP server (DiscoversTotal)" }
        offersTotal := some
          { fqName := buildFQName Namespace Name "offers_total"
            help := "Total DHCP Offers sent by the DHCP server (OffersTotal)" }
        requestsTotal := some
          { fqName := buildFQName Namespace Name "requests_total"
            help := "Total DHCP Requests received by the DHCP server (RequestsTotal)" }
        informsTotal := some
          { fqName := buildFQName Namespace Name "informs_total"
            help := "Total DHCP Informs received by the DHCP server (InformsTotal)" }
        acksTotal := some
          { fqName := buildFQName Namespace Name "acks_total"
            help := "Total DHCP Acks sent by the DHCP server (AcksTotal)" }
        nACKsTotal := some
          { fqName := buildFQName Namespace Name "nacks_total"
            help := "Total DHCP Nacks sent by the DHCP server (NacksTotal)" }
        declinesTotal := some
          { fqName := buildFQName Namespace Name "declines_total"
            help := "Total DHCP Declines received by the DHCP server (DeclinesTotal)" }
        releasesTotal := some
          { fqName := buildFQName Namespace Name "releases_total"
            help := "Total DHCP Releases received by the DHCP server (ReleasesTotal)" }
        offerQueueLength := some
          { fqName := buildFQName Namespace Name "offer_queue_length"
            help := "Number of packets in the offer queue of the DHCP server (OfferQueueLength)" }
        deniedDueToMatch := some
          { fqName := buildFQName Namespace Name "denied_due_to_match_total"
            help := "Total number of DHCP requests denied, based on matches from the Deny list (DeniedDueToMatch)" }
        deniedDueToNonMatch := some
          { fqName := buildFQName Namespace Name "denied_due_to_nonmatch_total"
            help := "Total number of DHCP requests denied, based on non-matches from the Allow list (DeniedDueToNonMatch)" }
        failoverBndUpdSentTotal := some
          { fqName := buildFQName Namespace Name "failover_bndupd_sent_total"
            help := "Number of DHCP fail over Binding Update messages sent (FailoverBndupdSentTotal)" }
        failoverBndUpdReceivedTotal := some
          { fqName := buildFQName Namespace Name "failover_bndupd_received_total"
            help := "Number of DHCP fail over Binding Update messages received (FailoverBndupdReceivedTotal)" }
        failoverBndAckSentTotal := some
          { fqName := buildFQName Namespace Name "failover_bndack_sent_total"
            help := "Number of DHCP fail over Binding Ack messages sent (FailoverBndackSentTotal)" }
        failoverBndAckReceivedTotal := some
          { fqName := buildFQName Namespace Name "failover_bndack_received_total"
            help := "Number of DHCP fail over Binding Ack messages received (FailoverBndackReceivedTotal)" }
        failoverBndUpdPendingOutboundQueue := some
          { fqName := buildFQName Namespace Name "failover_bndupd_pending_in_outbound_queue"
            help := "Number of pending outbound DHCP fail over Binding Update messages (FailoverBndupdPendingOutboundQueue)" }
        failoverTransitionsCommunicationInterruptedState := some
          { fqName := buildFQName Namespace Name "failover_transitions_communicationinterrupted_state_total"
            help := "Total number of transitions into COMMUNICATION INTERRUPTED state (FailoverTransitionsCommunicationinterruptedState)" }
        failoverTransitionsPartnerDownState := some
          { fqName := buildFQName Namespace Name "failover_transitions_partnerdown_state_total"
            help := "Total number of transitions into PARTNER DOWN state (FailoverTransitionsPartnerdownState)" }
        failoverTransitionsRecoverState := some
          { fqName := buildFQName Namespace Name "failover_transitions_recover_total"
            help := "Total number of transitions into RECOVER state (FailoverTransitionsRecoverState)" }
        failoverBndUpdDropped := some
          { fqName := buildFQName Namespace Name "failover_bndupd_dropped_total"
            help := "Total number of DHCP fail over Binding Updates dropped (FailoverBndupdDropped)" } }

/-- The per-scrape raw inputs of one collection pass: the snapshot blob of
the DHCP Server performance object for the legacy path (ctx.PerfObjects)
and the outcome of the perfdata Collect call for the PDH path. -/
structure ScrapeInput where
  perfObjects : PerfObjectBlob
  pdhResult : Except String PerfData

/-- func (c *Collector) collect (dhcp.go lines 293-451), the legacy
Structured-Decode path: unmarshal the snapshot blob into dhcpPerf records,
then emit one sample per catalog entry from the first record, in source
order.  Result: (emitted samples, returned error). -/
def Collector.collect (c : Collector) (blob : PerfObjectBlob) :
    List Metric × Option String :=
  match v1UnmarshalObject blob with
  | Except.error err => ([], some err)
  | Except.ok [] => ([], some "index out of range")
  | Except.ok (r :: _) =>
      ([{ desc := c.packetsReceivedTotal, valueType := ValueType.counterValue,
          value := r.PacketsReceivedTotal },
        { desc := c.duplicatesDroppedTotal, valueType := ValueType.counterValue,
          value := r.DuplicatesDroppedTotal },
        { desc := c.packetsExpiredTotal, valueType := ValueType.counterValue,
          value := r.PacketsExpiredTotal },
        { desc := c.activeQueueLength, valueType := ValueType.gaugeValue,
          value := r.ActiveQueueLength },
        { desc := c.conflictCheckQueueLength, valueType := ValueType.gaugeValue,
          value := r.ConflictCheckQueueLength },
        { desc := c.discoversTotal, valueType := ValueType.counterValue,
          value := r.DiscoversTotal },
        { desc := c.offersTotal, valueType := ValueType.counterValue,
          value := r.OffersTotal },
        { desc := c.requestsTotal, valueType := ValueType.counterValue,
          value := r.RequestsTotal },
        { desc := c.informsTotal, valueType := ValueType.counterValue,
          value := r.InformsTotal },
        { desc := c.acksTotal, valueType := ValueType.counterValue,
          value := r.AcksTotal },
        { desc := c.nACKsTotal, valueType := ValueType.counterValue,
          value := r.NacksTotal },
        { desc := c.declinesTotal, valueType := ValueType.counterValue,
          value := r.DeclinesTotal },
        { desc := c.releasesTotal, valueType := ValueType.counterValue,
          value := r.ReleasesTotal },
        { desc := c.offerQueueLength, valueType := ValueType.gaugeValue,
          value := r.OfferQueueLength },
        { desc := c.deniedDueToMatch, valueType := ValueType.counterValue,
          value := r.DeniedDueToMatch },
        { desc := c.deniedDueToNonMatch, valueType := ValueType.counterValue,
          value := r.DeniedDueToNonMatch },
        { desc := c.failoverBndUpdSentTotal, valueType := ValueType.counterValue,
          value := r.FailoverBndUpdSentTotal },
        { desc := c.failoverBndUpdReceivedTotal, valueType := ValueType.counterValue,
          value := r.FailoverBndUpdReceivedTotal },
        { desc := c.failoverBndAckSentTotal, valueType := ValueType.counterValue,
          value := r.FailoverBndAckSentTotal },
        { desc := c.failoverBndAckReceivedTotal, valueType := ValueType.counterValue,
          value := r.FailoverBndAckReceivedTotal },
        { desc := c.failoverBndUpdPendingOutboundQueue, valueType := ValueType.gaugeValue,
          value := r.FailoverBndUpdPendingOutboundQueue },
        { desc := c.failoverTransitionsCommunicationInterruptedState,
          valueType := ValueType.counterValue,
          value := r.FailoverTransitionsCommunicationInterruptedState },
        { desc := c.failoverTransitionsPartnerDownState, valueType := ValueType.counterValue,
          value := r.FailoverTransitionsPartnerDownState },
        { desc := c.failoverTransitionsRecoverState, valueType := ValueType.counterValue,
          value := r.FailoverTransitionsRecoverState },
        { desc := c.failoverBndUpdDropped, valueType := ValueType.counterValue,
          value := r.FailoverBndUpdDropped }], none)

/-- func (c *Collector) collectPDH (dhcp.go lines 453-615), the direct
Raw-Named-Lookup path: run the perfdata Collect call, look up the
singleton empty-instance key with comma-ok, then emit one sample per
catalog entry from the inner counter map, in source order.  Result:
(emitted samples, returned error). -/
def Collector.collectPDH (c : Collector) (collectRes : Except String PerfData) :
    List Metric × Option String :=
  match collectRes with
  | Except.error err =>
      ([], some ("failed to collect DHCP Server metrics: " ++ err))
  | Except.ok perfData =>
      match lookupInstance perfData with
      | none => ([], some "perflib query for DHCP Server returned empty result set")
      | some data =>
          ([{ desc := c.packetsReceivedTotal, valueType := ValueType.counterValue,
              value := (lookupCounter data CounterId.packetsReceivedTotal).FirstValue },
            { desc := c.duplicatesDroppedTotal, valueType := ValueType.counterValue,
              value := (lookupCounter data CounterId.duplicatesDroppedTotal).FirstValue },
            { desc := c.packetsExpiredTotal, valueType := ValueType.counterValue,
              value := (lookupCounter data CounterId.packetsExpiredTotal).FirstValue },
            { desc := c.activeQueueLength, valueType := ValueType.gaugeValue,
              value := (lookupCounter data CounterId.activeQueueLength).FirstValue },
            { desc := c.conflictCheckQueueLength, valueType := ValueType.gaugeValue,
              value := (lookupCounter data CounterId.conflictCheckQueueLength).FirstValue },
            { desc := c.discoversTotal, valueType := ValueType.counterValue,
              value := (lookupCounter data CounterId.discoversTotal).FirstValue },
            { desc := c.offersTotal, valueType := ValueType.counterValue,
              value := (lookupCounter data CounterId.offersTotal).FirstValue },
            { desc := c.requestsTotal, valueType := ValueType.counterValue,
              value := (lookupCounter data CounterId.requestsTotal).FirstValue },
            { desc := c.informsTotal, valueType := ValueType.counterValue,
              value := (lookupCounter data CounterId.informsTotal).FirstValue },
            { desc := c.acksTotal, valueType := ValueType.counterValue,
              value := (lookupCounter data CounterId.acksTotal).FirstValue },
            { desc := c.nACKsTotal, valueType := ValueType.counterValue,
              value := (lookupCounter data CounterId.nacksTotal).FirstValue },
            { desc := c.declinesTotal, valueType := ValueType.counterValue,
              value := (lookupCounter data CounterId.declinesTotal).FirstValue },
            { desc := c.releasesTotal, valueType := ValueType.counterValue,
              value := (lookupCounter data CounterId.releasesTotal).FirstValue },
            { desc := c.offerQueueLength, valueType := ValueType.gaugeValue,
              value := (lookupCounter data CounterId.offerQueueLength).FirstValue },
            { desc := c.deniedDueToMatch, valueType := ValueType.counterValue,
              value := (lookupCounter data CounterId.deniedDueToMatch).FirstValue },
            { desc := c.deniedDueToNonMatch, valueType := ValueType.counterValue,
              value := (lookupCounter data CounterId.deniedDueToNonMatch).FirstValue },
            { desc := c.failoverBndUpdSentTotal, valueType := ValueType.counterValue,
              value := (lookupCounter data CounterId.failoverBndUpdSentTotal).FirstValue },
            { desc := c.failoverBndUpdReceivedTotal, valueType := ValueType.counterValue,
              value := (lookupCounter data CounterId.failoverBndUpdReceivedTotal).FirstValue },
            { desc := c.failoverBndAckSentTotal, valueType := ValueType.counterValue,
              value := (lookupCounter data CounterId.failoverBndAckSentTotal).FirstValue },
            { desc := c.failoverBndAckReceivedTotal, valueType := ValueType.counterValue,
              value := (lookupCounter data CounterId.failoverBndAckReceivedTotal).FirstValue },
            { desc := c.failoverBndUpdPendingOutboundQueue, valueType := ValueType.gaugeValue,
              value := (lookupCounter data CounterId.failoverBndUpdPendingOutboundQueue).FirstValue },
            { desc := c.failoverTransitionsCommunicationInterruptedState,
              valueType := ValueType.counterValue,
              value := (lookupCounter data CounterId.failoverTransitionsCommunicationInterruptedState).FirstValue },
            { desc := c.failoverTransitionsPartnerDownState, valueType := ValueType.counterValue,
              value := (lookupCounter data CounterId.failoverTransitionsPartnerDownState).FirstValue },
            { desc := c.failoverTransitionsRecoverState, valueType := ValueType.counterValue,
              value := (lookupCounter data CounterId.failoverTransitionsRecoverState).FirstValue },
            { desc := c.failoverBndUpdDropped, valueType := ValueType.counterValue,
              value := (lookupCounter data CounterId.failoverBndUpdDropped).FirstValue }], none)

/-- func (c *Collector) Collect (dhcp.go lines 283-291): the per-scrape
entry point.  It consults the ambient utils.PDHEnabled() configuration
switch (passed explicitly here) on every call and dispatches to collectPDH
or collect. -/
def Collector.Collect (c : Collector) (pdhEnabled : Bool) (s : ScrapeInput) :
    List Metric × Option String :=
  if pdhEnabled then c.collectPDH s.pdhResult else c.collect s.perfObjects

/-- The catalog entries in emission order: the order in which both collect
and collectPDH push samples to the channel (dhcp.go lines 300-448 and
464-612, which agree). -/
def catalogOrder : List CounterId :=
  [CounterId.packetsReceivedTotal,
   CounterId.duplicatesDroppedTotal,
   CounterId.packetsExpiredTotal,
   CounterId.activeQueueLength,
   CounterId.conflictCheckQueueLength,
   CounterId.discoversTotal,
   CounterId.offersTotal,
   CounterId.requestsTotal,
   CounterId.informsTotal,
   CounterId.acksTotal,
   CounterId.nacksTotal,
   CounterId.declinesTotal,
   CounterId.releasesTotal,
   CounterId.offerQueueLength,
   CounterId.deniedDueToMatch,
   CounterId.deniedDueToNonMatch,
   CounterId.failoverBndUpdSentTotal,
   CounterId.failoverBndUpdReceivedTotal,
   CounterId.failoverBndAckSentTotal,
   CounterId.failoverBndAckReceivedTotal,
   CounterId.failoverBndUpdPendingOutboundQueue,
   CounterId.failoverTransitionsCommunicationInterruptedState,
   CounterId.failoverTransitionsPartnerDownState,
   CounterId.failoverTransitionsRecoverState,
   CounterId.failoverBndUpdDropped]

/-- The metric kind used at the emission site of each catalog entry (the
prometheus.CounterValue and prometheus.GaugeValue arguments of the
MustNewConstMetric calls in collect and collectPDH, which agree): the four
queue-length counters are gauges, everything else is a counter. -/
def counterKind : CounterId → ValueType
  | CounterId.activeQueueLength => ValueType.gaugeValue
  | CounterId.conflictCheckQueueLength => ValueType.gaugeValue
  | CounterId.offerQueueLength => ValueType.gaugeValue
  | CounterId.failoverBndUpdPendingOutboundQueue => ValueType.gaugeValue
  | _ => ValueType.counterValue

/-- The descriptor field of the collector that each catalog entry is
emitted with. -/
def collectorDescFor (c : Collector) : CounterId → Option Desc
  | CounterId.acksTotal => c.acksTotal
  | CounterId.activeQueueLength => c.activeQueueLength
  | CounterId.conflictCheckQueueLength => c.conflictCheckQueueLength
  | CounterId.declinesTotal => c.declinesTotal
  | CounterId.deniedDueToMatch => c.deniedDueToMatch
  | CounterId.deniedDueToNonMatch => c.deniedDueToNonMatch
  | CounterId.discoversTotal => c.discoversTotal
  | CounterId.duplicatesDroppedTotal => c.duplicatesDroppedTotal
  | CounterId.failoverBndAckReceivedTotal => c.failoverBndAckReceivedTotal
  | CounterId.failoverBndAckSentTotal => c.failoverBndAckSentTotal
  | CounterId.failoverBndUpdDropped => c.failoverBndUpdDropped
  | CounterId.failoverBndUpdPendingOutboundQueue => c.failoverBndUpdPendingOutboundQueue
  | CounterId.failoverBndUpdReceivedTotal => c.failoverBndUpdReceivedTotal
  | CounterId.failoverBndUpdSentTotal => c.failoverBndUpdSentTotal
  | CounterId.failoverTransitionsCommunicationInterruptedState =>
      c.failoverTransitionsCommunicationInterruptedState
  | CounterId.failoverTransitionsPartnerDownState => c.failoverTransitionsPartnerDownState
  | CounterId.failoverTransitionsRecoverState => c.failoverTransitionsRecoverState
  | CounterId.informsTotal => c.informsTotal
  | CounterId.nacksTotal => c.nACKsTotal
  | CounterId.offerQueueLength => c.offerQueueLength
  | CounterId.offersTotal => c.offersTotal
  | CounterId.packetsExpiredTotal => c.packetsExpiredTotal
  | CounterId.packetsReceivedTotal => c.packetsReceivedTotal
  | CounterId.releasesTotal => c.releasesTotal
  | CounterId.requestsTotal => c.requestsTotal

/-- The collector descriptor fields in emission order. -/
def collectorDescs (c : Collector) : List (Option Desc) :=
  catalogOrder.map (collectorDescFor c)

/-- Modelled from the spec: the binding of structured-record fields to
counter identifiers, established by field-name equality when the catalog
was authored (the perflib struct tags live in a file of the dhcp package
that is not under src).  Each field of the decoded record is bound to
exactly one catalog identifier. -/
def fieldOf (r : dhcpPerf) : CounterId → Rat
  | CounterId.acksTotal => r.AcksTotal
  | CounterId.activeQueueLength => r.ActiveQueueLength
  | CounterId.conflictCheckQueueLength => r.ConflictCheckQueueLength
  | CounterId.declinesTotal => r.DeclinesTotal
  | CounterId.deniedDueToMatch => r.DeniedDueToMatch
  | CounterId.deniedDueToNonMatch => r.DeniedDueToNonMatch
  | CounterId.discoversTotal => r.DiscoversTotal
  | CounterId.duplicatesDroppedTotal => r.DuplicatesDroppedTotal
  | CounterId.failoverBndAckReceivedTotal => r.FailoverBndAckReceivedTotal
  | CounterId.failoverBndAckSentTotal => r.FailoverBndAckSentTotal
  | CounterId.failoverBndUpdDropped => r.FailoverBndUpdDropped
  | CounterId.failoverBndUpdPendingOutboundQueue => r.FailoverBndUpdPendingOutboundQueue
  | CounterId.failoverBndUpdReceivedTotal => r.FailoverBndUpdReceivedTotal
  | CounterId.failoverBndUpdSentTotal => r.FailoverBndUpdSentTotal
  | CounterId.failoverTransitionsCommunicationInterruptedState =>
      r.FailoverTransitionsCommunicationInterruptedState
  | CounterId.failoverTransitionsPartnerDownState => r.FailoverTransitionsPartnerDownState
  | CounterId.failoverTransitionsRecoverState => r.FailoverTransitionsRecoverState
  | CounterId.informsTotal => r.InformsTotal
  | CounterId.nacksTotal => r.NacksTotal
  | CounterId.offerQueueLength => r.OfferQueueLength
  | CounterId.offersTotal => r.OffersTotal
  | CounterId.packetsExpiredTotal => r.PacketsExpiredTotal
  | CounterId.packetsReceivedTotal => r.PacketsReceivedTotal
  | CounterId.releasesTotal => r.ReleasesTotal
  | CounterId.requestsTotal => r.RequestsTotal

/-- The observable identity of a sample: its descriptor name and its kind. -/
def metricNameKind (m : Metric) : Option String × ValueType :=
  (m.desc.map Desc.fqName, m.valueType)

/-- The enumerated metric set of the spec, in emission order: fully
qualified name and kind of each catalog entry. -/
def expectedCatalog : List (Option String × ValueType) :=
  [(some "windows_dhcp_packets_received_total", ValueType.counterValue),
   (some "windows_dhcp_duplicates_dropped_total", ValueType.counterValue),
   (some "windows_dhcp_packets_expired_total", ValueType.counterValue),
   (some "windows_dhcp_active_queue_length", ValueType.gaugeValue),
   (some "windows_dhcp_conflict_check_queue_length", ValueType.gaugeValue),
   (some "windows_dhcp_discovers_total", ValueType.counterValue),
   (some "windows_dhcp_offers_total", ValueType.counterValue),
   (some "windows_dhcp_requests_total", ValueType.counterValue),
   (some "windows_dhcp_informs_total", ValueType.counterValue),
   (some "windows_dhcp_acks_total", ValueType.counterValue),
   (some "windows_dhcp_nacks_total", ValueType.counterValue),
   (some "windows_dhcp_declines_total", ValueType.counterValue),
   (some "windows_dhcp_releases_total", ValueType.counterValue),
   (some "windows_dhcp_offer_queue_length", ValueType.gaugeValue),
   (some "windows_dhcp_denied_due_to_match_total", ValueType.counterValue),
   (some "windows_dhcp_denied_due_to_nonmatch_total", ValueType.counterValue),
   (some "windows_dhcp_failover_bndupd_sent_total", ValueType.counterValue),
   (some "windows_dhcp_failover_bndupd_received_total", ValueType.counterValue),
   (some "windows_dhcp_failover_bndack_sent_total", ValueType.counterValue),
   (some "windows_dhcp_failover_bndack_received_total", ValueType.counterValue),
   (some "windows_dhcp_failover_bndupd_pending_in_outbound_queue", ValueType.gaugeValue),
   (some "windows_dhcp_failover_transitions_communicationinterrupted_state_total",
     ValueType.counterValue),
   (some "windows_dhcp_failover_transitions_partnerdown_state_total",
     ValueType.counterValue),
   (some "windows_dhcp_failover_transitions_recover_total", ValueType.counterValue),
   (some "windows_dhcp_failover_bndupd_dropped_total", ValueType.counterValue)]

/-- The legacy path on a successfully decoded nonempty record sequence
emits, in catalog order, one sample per entry built from the first record
and returns no error. -/
theorem collect_records_eq (c : Collector) (r : dhcpPerf) (rest : List dhcpPerf) :
    c.collect (PerfObjectBlob.records (r :: rest)) =
      (catalogOrder.map fun i =>
        { desc := collectorDescFor c i, valueType := counterKind i,
          value := fieldOf r i }, none) :=
  rfl

/-- The PDH path, when the empty-instance key is present, emits, in
catalog order, one sample per entry built from the inner counter map and
returns no error. -/
theorem collectPDH_ok_eq (c : Collector) (pd : PerfData)
    (data : List (CounterId × CounterValues))
    (h : lookupInstance pd = some data) :
    c.collectPDH (Except.ok pd) =
      (catalogOrder.map fun i =>
        { desc := collectorDescFor c i, valueType := counterKind i,
          value := (lookupCounter data i).FirstValue }, none) := by
  simp only [Collector.collectPDH, h]
  rfl

/-- Any legacy collection pass either emits the full catalog from the first
decoded record with no error, or emits nothing and returns an error. -/
theorem collect_shape (c : Collector) (blob : PerfObjectBlob) :
    (∃ r rest, blob = PerfObjectBlob.records (r :: rest) ∧
      c.collect blob =
        (catalogOrder.map fun i =>
          { desc := collectorDescFor c i, valueType := counterKind i,
            value := fieldOf r i }, none)) ∨
    ((c.collect blob).1 = [] ∧ (c.collect blob).2 ≠ none) := by
  cases blob with
  | malformed msg =>
      right
      exact ⟨rfl, by simp [Collector.collect, v1UnmarshalObject]⟩
  | records recs =>
      cases recs with
      | nil =>
          right
          exact ⟨rfl, by simp [Collector.collect, v1UnmarshalObject]⟩
      | cons r rest =>
          left
          exact ⟨r, rest, rfl, collect_records_eq c r rest⟩

/-- Any PDH collection pass either emits the full catalog from the inner
counter map of the empty instance with no error, or emits nothing and
returns an error. -/
theorem collectPDH_shape (c : Collector) (res : Except String PerfData) :
    (∃ data, c.collectPDH res =
        (catalogOrder.map fun i =>
          { desc := collectorDescFor c i, valueType := counterKind i,
            value := (lookupCounter data i).FirstValue }, none)) ∨
    ((c.collectPDH res).1 = [] ∧ (c.collectPDH res).2 ≠ none) := by
  cases res with
  | error err =>
      right
      exact ⟨rfl, by simp [Collector.collectPDH]⟩
  | ok pd =>
      cases hli : lookupInstance pd with
      | none =>
          right
          constructor
          · simp [Collector.collectPDH, hli]
          · simp [Collector.collectPDH, hli]
      | some data =>
          left
          exact ⟨data, collectPDH_ok_eq c pd data hli⟩

/-- Any collection pass, on whichever path the switch selects, either
emits the full catalog with no error or emits nothing and errors. -/
theorem Collect_shape (c : Collector) (e : Bool) (s : ScrapeInput) :
    (∃ vals : CounterId → Rat, c.Collect e s =
        (catalogOrder.map fun i =>
          { desc := collectorDescFor c i, valueType := counterKind i,
            value := vals i }, none)) ∨
    ((c.Collect e s).1 = [] ∧ (c.Collect e s).2 ≠ none) := by
  cases e with
  | false =>
      rcases collect_shape c s.perfObjects with ⟨r, _rest, -, he⟩ | hf
      · exact Or.inl ⟨fieldOf r, he⟩
      · exact Or.inr hf
  | true =>
      rcases collectPDH_shape c s.pdhResult with ⟨data, he⟩ | hf
      · exact Or.inl ⟨fun i => (lookupCounter data i).FirstValue, he⟩
      · exact Or.inr hf

/-- The collector obtained by a legacy-configuration Build on a fresh
collector. -/
def builtLegacy : Collector :=
  match (New none).Build false with
  | Except.ok c => c
  | Except.error _ => New none

/-- The collector obtained by a direct-configuration (PDH) Build on a
fresh collector. -/
def builtDirect : Collector :=
  match (New none).Build true with
  | Except.ok c => c
  | Except.error _ => New none

/-- The configuration carries no data, so a fresh collector does not
depend on it. -/
theorem New_config_irrelevant (cfg : Option Config) : New cfg = New none := by
  cases cfg with
  | none => rfl
  | some cc => cases cc with | mk => rfl

/-- Build on a fresh collector always succeeds and yields the collector
determined solely by the configuration switch. -/
theorem build_fresh (cfg : Option Config) (e : Bool) :
    (New cfg).Build e = Except.ok (if e then builtDirect else builtLegacy) := by
  rw [New_config_irrelevant]
  cases e <;> rfl

/-- A sample record whose every field is 42. -/
def r42 : dhcpPerf :=
  ⟨42, 42, 42, 42, 42, 42, 42, 42, 42, 42, 42, 42, 42,
   42, 42, 42, 42, 42, 42, 42, 42, 42, 42, 42, 42⟩

/-- A sample record with pairwise distinct field values. -/
def rSeq : dhcpPerf :=
  ⟨1, 2, 3, 4, 5, 6, 7, 8, 9, 10, 11, 12, 13,
   14, 15, 16, 17, 18, 19, 20, 21, 22, 23, 24, 25⟩

/-- A PDH inner counter map encoding the same underlying values as rSeq. -/
def wData : List (CounterId × CounterValues) :=
  catalogOrder.map fun i => (i, { FirstValue := fieldOf rSeq i, SecondValue := 0 })

/-- A PDH collection result holding wData under the singleton empty
instance key. -/
def wPerfData : PerfData := [(EmptyInstance, wData)]

/-- A fixed per-scrape raw input: a decodable one-record blob for the
legacy path and a failing perfdata call for the PDH path. -/
def c6Scrape : ScrapeInput :=
  { perfObjects := PerfObjectBlob.records [r42]
    pdhResult := Except.error "query failed" }

/-- Claim C1: on raw inputs that encode the same underlying counter
values — a decoded record sequence whose first record agrees, field by
bound field, with the first values of the empty-instance counter map —
the legacy collect path and the direct collectPDH path produce identical
emitted sample sequences: same descriptors, same kinds, same values, in
the same order, and the same (absent) error. -/
theorem C1_paths_agree (c : Collector) (r : dhcpPerf) (rest : List dhcpPerf)
    (pd : PerfData) (data : List (CounterId × CounterValues))
    (hinst : lookupInstance pd = some data)
    (hvals : ∀ i, fieldOf r i = (lookupCounter data i).FirstValue) :
    c.collect (PerfObjectBlob.records (r :: rest)) = c.collectPDH (Except.ok pd) := by
  rw [collect_records_eq, collectPDH_ok_eq c pd data hinst]
  have hf : (fun i => Metric.mk (collectorDescFor c i) (counterKind i) (fieldOf r i)) =
      fun i => Metric.mk (collectorDescFor c i) (counterKind i)
        ((lookupCounter data i).FirstValue) :=
    funext fun i => by rw [hvals i]
  rw [hf]

/-- Witness for C1 at a concrete record and a concrete counter map
encoding the same values. -/
theorem C1_paths_agree_witness :
    builtLegacy.collect (PerfObjectBlob.records [rSeq]) =
      builtLegacy.collectPDH (Except.ok wPerfData) :=
  C1_paths_agree builtLegacy rSeq [] wPerfData wData (by decide) (by decide)

/-- Claim C2: a legacy scrape whose snapshot decodes to an empty record
sequence returns the no-records scrape-level error and emits zero
samples. -/
theorem C2_empty_sequence_fails (c : Collector) :
    c.collect (PerfObjectBlob.records []) = ([], some "no records") := rfl

/-- Claim C3 (counterexample): when the empty-instance key is absent,
collectPDH does fail with zero samples, but the error text is the
empty-result-set message, which does not contain the substring required
by the claim. -/
theorem C3_counterexample :
    builtDirect.collectPDH (Except.ok []) =
      ([], some "perflib query for DHCP Server returned empty result set") ∧
    ¬ (String.toList "not found" <:+:
        String.toList "perflib query for DHCP Server returned empty result set") :=
  ⟨rfl, by decide⟩

/-- Claim C3 (amended): a PDH scrape whose Collect result lacks the
expected singleton empty-instance key returns a scrape error reporting an
empty result set for the DHCP Server query, and emits zero samples. -/
theorem C3_missing_instance_fails (c : Collector) (pd : PerfData)
    (h : lookupInstance pd = none) :
    c.collectPDH (Except.ok pd) =
      ([], some "perflib query for DHCP Server returned empty result set") := by
  simp only [Collector.collectPDH, h]

/-- Witness for the amended C3 at a concrete empty collection result. -/
theorem C3_missing_instance_fails_witness :
    builtDirect.collectPDH (Except.ok []) =
      ([], some "perflib query for DHCP Server returned empty result set") :=
  C3_missing_instance_fails builtDirect [] rfl

/-- Claim C4: after any successful Build, the descriptor fields carry
exactly the enumerated fully-qualified metric names (namespace windows,
component dhcp), and every successful collection pass on either path
emits exactly one sample per enumerated entry with that name and kind,
in catalog order. -/
theorem C4_catalog_exact (e : Bool) (c0 c : Collector)
    (hb : c0.Build e = Except.ok c) :
    (collectorDescs c).map (Option.map Desc.fqName) = expectedCatalog.map Prod.fst ∧
    (∀ blob out, c.collect blob = (out, none) →
      out.map metricNameKind = expectedCatalog) ∧
    (∀ res out, c.collectPDH res = (out, none) →
      out.map metricNameKind = expectedCatalog) := by
  cases e <;>
    (simp [Collector.Build, perfdataNewCollector] at hb
     subst hb
     refine ⟨rfl, ?_, ?_⟩
     · intro blob out h
       rcases collect_shape _ blob with ⟨r, rest, -, he⟩ | ⟨-, h2⟩
       · rw [he] at h
         simp only [Prod.mk.injEq] at h
         obtain ⟨h1, -⟩ := h
         subst h1
         rfl
       · exact absurd (congrArg Prod.snd h) h2
     · intro res out h
       rcases collectPDH_shape _ res with ⟨data, he⟩ | ⟨-, h2⟩
       · rw [he] at h
         simp only [Prod.mk.injEq] at h
         obtain ⟨h1, -⟩ := h
         subst h1
         rfl
       · exact absurd (congrArg Prod.snd h) h2)

/-- Witness for C4 at a legacy Build on a fresh collector. -/
theorem C4_catalog_exact_witness :
    (collectorDescs builtLegacy).map (Option.map Desc.fqName) =
      expectedCatalog.map Prod.fst :=
  (C4_catalog_exact false (New none) builtLegacy rfl).1

/-- Claim C5: every scrape, under either switch value, either emits
exactly one sample per catalog entry (all 25, with the enumerated names
and kinds) and returns no error, or returns an error having emitted no
samples; no successful run emits a proper subset. -/
theorem C5_all_or_nothing (eb ec : Bool) (c0 c : Collector)
    (hb : c0.Build eb = Except.ok c) (s : ScrapeInput) :
    expectedCatalog.length = 25 ∧
    ((c.Collect ec s).2 = none →
      (c.Collect ec s).1.map metricNameKind = expectedCatalog) ∧
    ((c.Collect ec s).2 ≠ none → (c.Collect ec s).1 = []) := by
  cases eb <;>
    (simp [Collector.Build, perfdataNewCollector] at hb
     subst hb
     rcases Collect_shape _ ec s with ⟨vals, he⟩ | ⟨h1, h2⟩
     · refine ⟨rfl, fun _ => ?_, fun hne => absurd ?_ hne⟩
       · rw [he]
         rfl
       · rw [he]
     · exact ⟨rfl, fun hn => absurd hn h2, fun _ => h1⟩)

/-- Witness for C5 at a legacy Build and a concrete scrape. -/
theorem C5_all_or_nothing_witness :
    expectedCatalog.length = 25 ∧
    ((builtLegacy.Collect false c6Scrape).2 = none →
      (builtLegacy.Collect false c6Scrape).1.map metricNameKind = expectedCatalog) ∧
    ((builtLegacy.Collect false c6Scrape).2 ≠ none →
      (builtLegacy.Collect false c6Scrape).1 = []) :=
  C5_all_or_nothing false false (New none) builtLegacy rfl c6Scrape

/-- Claim C6 (counterexample): the per-scrape Collect call does
re-evaluate the configuration switch: with the collector built under the
legacy configuration and the raw scrape input held fixed, flipping only
the switch between two Collect calls changes the outcome from success to
error, so the path taken is decided by the switch value at scrape time,
not by a strategy stored at Build time. -/
theorem C6_counterexample :
    (New none).Build false = Except.ok builtLegacy ∧
    (builtLegacy.Collect false c6Scrape).2 = none ∧
    (builtLegacy.Collect true c6Scrape).2 ≠ none := by
  refine ⟨rfl, rfl, ?_⟩
  decide

/-- Claim C6 (amended): Build evaluates the switch once to decide whether
to create the query handle — on a fresh collector the handle is stored
exactly when the direct strategy is configured — and Collect consults the
switch again on every scrape to choose the acquisition path; no chosen
strategy is stored on the collector. -/
theorem C6_switch_reevaluated (e ec : Bool) (cfg : Option Config) (c : Collector)
    (hb : (New cfg).Build e = Except.ok c) (s : ScrapeInput) :
    c.perfDataCollector.isSome = e ∧
    c.Collect ec s =
      (if ec then c.collectPDH s.pdhResult else c.collect s.perfObjects) := by
  rw [build_fresh] at hb
  injection hb with hb1
  subst hb1
  cases e <;> exact ⟨rfl, rfl⟩

/-- Witness for the amended C6: legacy Build, PDH-switched scrape. -/
theorem C6_switch_reevaluated_witness :
    builtLegacy.perfDataCollector.isSome = false ∧
    builtLegacy.Collect true c6Scrape =
      (if true then builtLegacy.collectPDH c6Scrape.pdhResult
       else builtLegacy.collect c6Scrape.perfObjects) :=
  C6_switch_reevaluated false true none builtLegacy rfl c6Scrape

/-- Claim C7 (code divergence): a direct-configuration Build stores an
open perfdata query handle on the collector, yet Close returns nil and
leaves the collector — including the still-open handle — entirely
untouched: no release of the acquisition handle happens. -/
theorem C7_close_releases_nothing :
    (New none).Build true = Except.ok builtDirect ∧
    builtDirect.perfDataCollector =
      some { object := "DHCP Server", counters := dhcpCounters, isOpen := true } ∧
    builtDirect.Close = (builtDirect, none) ∧
    (builtDirect.Close).1.perfDataCollector.map PerfDataQuery.isOpen = some true :=
  ⟨rfl, rfl, rfl, rfl⟩

/-- Claim C8: Build is deterministic: two Builds on fresh collectors under
the same configuration produce descriptor sets identical in name and help
text for every catalog entry, and collectors with identical emission
behaviour (hence identical kinds) on both paths. -/
theorem C8_build_deterministic (e : Bool) (cfg1 cfg2 : Option Config)
    (c1 c2 : Collector)
    (h1 : (New cfg1).Build e = Except.ok c1)
    (h2 : (New cfg2).Build e = Except.ok c2) :
    collectorDescs c1 = collectorDescs c2 ∧
    (∀ blob, c1.collect blob = c2.collect blob) ∧
    (∀ res, c1.collectPDH res = c2.collectPDH res) := by
  rw [build_fresh] at h1 h2
  injection h1 with h1e
  injection h2 with h2e
  subst h1e
  subst h2e
  exact ⟨rfl, fun _ => rfl, fun _ => rfl⟩

/-- Witness for C8 at two fresh legacy Builds. -/
theorem C8_build_deterministic_witness :
    collectorDescs builtLegacy = collectorDescs builtLegacy ∧
    (∀ blob, builtLegacy.collect blob = builtLegacy.collect blob) ∧
    (∀ res, builtLegacy.collectPDH res = builtLegacy.collectPDH res) :=
  C8_build_deterministic false none (some ConfigDefaults) builtLegacy builtLegacy
    rfl rfl

/-- Claim C9: on the legacy path, a snapshot that decodes to exactly one
record whose PacketsReceivedTotal field is 42 yields a successful scrape
whose first emitted sample is the packets-received-total Counter with
value 42. -/
theorem C9_packets_received_42 (e : Bool) (c0 c : Collector)
    (hb : c0.Build e = Except.ok c) (r : dhcpPerf)
    (h42 : r.PacketsReceivedTotal = 42) :
    (c.collect (PerfObjectBlob.records [r])).2 = none ∧
    (c.collect (PerfObjectBlob.records [r])).1.head? =
      some { desc := some { fqName := "windows_dhcp_packets_received_total"
                            help := "Total number of packets received by the DHCP server (PacketsReceivedTotal)" }
             valueType := ValueType.counterValue, value := 42 } := by
  cases e <;>
    (simp [Collector.Build, perfdataNewCollector] at hb
     subst hb
     refine ⟨rfl, ?_⟩
     rw [collect_records_eq]
     simp only [catalogOrder, List.map_cons, List.head?_cons, fieldOf]
     rw [h42]
     rfl)

/-- Witness for C9 at a concrete one-record blob. -/
theorem C9_packets_received_42_witness :
    (builtLegacy.collect (PerfObjectBlob.records [r42])).2 = none ∧
    (builtLegacy.collect (PerfObjectBlob.records [r42])).1.head? =
      some { desc := some { fqName := "windows_dhcp_packets_received_total"
                            help := "Total number of packets received by the DHCP server (PacketsReceivedTotal)" }
             valueType := ValueType.counterValue, value := 42 } :=
  C9_packets_received_42 false (New none) builtLegacy rfl r42 rfl

/-- Claim C10: on the PDH path, when the empty-instance key is present
but a catalog counter identifier is absent from its counter map, the
scrape succeeds and the sample for that entry is emitted with the Go
zero value 0. -/
theorem C10_missing_counter_reads_zero (e : Bool) (c0 c : Collector)
    (_hb : c0.Build e = Except.ok c) (pd : PerfData)
    (data : List (CounterId × CounterValues)) (i : CounterId)
    (hinst : lookupInstance pd = some data)
    (habsent : ∀ p ∈ data, p.1 ≠ i) :
    (c.collectPDH (Except.ok pd)).2 = none ∧
    Metric.mk (collectorDescFor c i) (counterKind i) 0 ∈
      (c.collectPDH (Except.ok pd)).1 := by
  have hz : lookupCounter data i = zeroValues := by
    have hf : data.find? (fun p => decide (p.1 = i)) = none := by
      rw [List.find?_eq_none]
      intro x hx
      simpa using habsent x hx
    simp [lookupCounter, hf]
  rw [collectPDH_ok_eq c pd data hinst]
  refine ⟨rfl, ?_⟩
  refine List.mem_map.mpr ⟨i, ?_, ?_⟩
  · cases i <;> simp [catalogOrder]
  · rw [hz]
    rfl

/-- Witness for C10 at a present empty instance with an empty counter
map. -/
theorem C10_missing_counter_reads_zero_witness :
    (builtDirect.collectPDH (Except.ok [(EmptyInstance, [])])).2 = none ∧
    Metric.mk (collectorDescFor builtDirect CounterId.packetsReceivedTotal)
      (counterKind CounterId.packetsReceivedTotal) 0 ∈
      (builtDirect.collectPDH (Except.ok [(EmptyInstance, [])])).1 :=
  C10_missing_counter_reads_zero true (New none) builtDirect rfl
    [(EmptyInstance, [])] [] CounterId.packetsReceivedTotal rfl
    (fun p hp => absurd hp (List.not_mem_nil p))

end Dhcp

